import Mathlib

/-!
Verification development for the WebRequestTimer core
(scheduler, retrying HTTP client, history/statistics store,
change-detection/notification pipeline).

Each Python module of `src/modules/` relevant to the checked claims is
shallowly embedded below as pure Lean definitions:

* `src/modules/udp_notifier.py`      → namespace `UdpNotifier`
* `src/modules/web_request_client.py`→ namespace `WebRequestClient`
* `src/modules/request_scheduler.py` → namespace `RequestScheduler`
* `src/modules/request_logger.py`    → namespace `RequestLogger`
* `src/modules/communication/udp_client.py` → namespace `UdpClient`

Python dicts whose values are JSON-like data are embedded as `JsonValue`;
wall-clock samples (`datetime.now()`) are threaded as explicit parameters;
`asyncio` effects are modelled by explicit state passing.
-/

namespace WebRequestTimer

/-- A JSON-like Python value: the payloads that appear as request/response
bodies (`dict` / `list` / `str` / `int` / `bool` / `None`).  A Python `dict`
is embedded as its insertion-ordered list of key/value pairs. -/
inductive JsonValue where
  | null
  | bool (b : Bool)
  | num (n : Int)
  | str (s : String)
  | arr (items : List JsonValue)
  | obj (fields : List (String × JsonValue))
deriving Repr

/-- Python `repr` of a `JsonValue` (used by `str()` on containers):
single-quoted strings, `True`/`False`/`None`, insertion order for dicts. -/
def pyRepr : JsonValue → String
  | .null => "None"
  | .bool true => "True"
  | .bool false => "False"
  | .num n => toString n
  | .str s => "'" ++ s ++ "'"
  | .arr items =>
      "[" ++ String.intercalate ", "
        (items.attach.map fun x => pyRepr x.1) ++ "]"
  | .obj fields =>
      "\x7b" ++ String.intercalate ", "
        (fields.attach.map fun kv => "'" ++ kv.1.1 ++ "': " ++ pyRepr kv.1.2)
      ++ "\x7d"
decreasing_by
  · have := List.sizeOf_lt_of_mem x.2
    simp only [JsonValue.arr.sizeOf_spec]
    omega
  · have h1 := List.sizeOf_lt_of_mem kv.2
    have h2 : sizeOf kv.1.2 < sizeOf kv.1 := by
      cases kv.1 with
      | mk a b => simp only [Prod.mk.sizeOf_spec]; omega
    simp only [JsonValue.obj.sizeOf_spec]
    omega

/-- Python `str()` of a `JsonValue`: a string is returned verbatim, anything
else falls back to `repr`. -/
def pyStr : JsonValue → String
  | .str s => s
  | v => pyRepr v

/-- Key order used when serializing a dict with `json.dumps(..., sort_keys=True)`:
field `a` before field `b` when `a`'s key is `≤` `b`'s key. -/
def keyLe (a b : String × JsonValue) : Prop := a.1 ≤ b.1

instance : DecidableRel keyLe := fun a b => inferInstanceAs (Decidable (a.1 ≤ b.1))

instance : IsTotal (String × JsonValue) keyLe := ⟨fun a b => le_total a.1 b.1⟩

instance : IsTrans (String × JsonValue) keyLe := ⟨fun _ _ _ h h' => le_trans h h'⟩

/-- The fields of a dict in the order `json.dumps(..., sort_keys=True)`
emits them: sorted by key. -/
def sortFields (fields : List (String × JsonValue)) : List (String × JsonValue) :=
  fields.insertionSort keyLe

/-- `json.dumps(v, sort_keys=True, ensure_ascii=False)`: JSON serialization
with every object's keys emitted in sorted order (default separators). -/
def dumpsSorted : JsonValue → String
  | .null => "null"
  | .bool true => "true"
  | .bool false => "false"
  | .num n => toString n
  | .str s => "\"" ++ s ++ "\""
  | .arr items =>
      "[" ++ String.intercalate ", "
        (items.attach.map fun x => dumpsSorted x.1) ++ "]"
  | .obj fields =>
      "\x7b" ++ String.intercalate ", "
        ((sortFields fields).attach.map fun kv =>
          "\"" ++ kv.1.1 ++ "\": " ++ dumpsSorted kv.1.2)
      ++ "\x7d"
decreasing_by
  · have := List.sizeOf_lt_of_mem x.2
    simp only [JsonValue.arr.sizeOf_spec]
    omega
  · have hmem : kv.1 ∈ fields := by
      have h := kv.2
      unfold sortFields at h
      exact (List.mem_insertionSort keyLe).mp h
    have h1 := List.sizeOf_lt_of_mem hmem
    have h2 : sizeOf kv.1.2 < sizeOf kv.1 := by
      cases kv.1 with
      | mk a b => simp only [Prod.mk.sizeOf_spec]; omega
    simp only [JsonValue.obj.sizeOf_spec]
    omega

/-- Strict key order, used to show that sorting by `keyLe` is unambiguous
when all keys are distinct. -/
def keyLt (a b : String × JsonValue) : Prop := a.1 < b.1

instance : IsAntisymm (String × JsonValue) keyLt :=
  ⟨fun _ _ h1 h2 => absurd h1 (lt_asymm h2)⟩

theorem sortFields_eq_of_perm (l1 l2 : List (String × JsonValue))
    (hp : l1.Perm l2) (hnd : (l1.map Prod.fst).Nodup) :
    sortFields l1 = sortFields l2 := by
  have hperm : (sortFields l1).Perm (sortFields l2) :=
    ((l1.perm_insertionSort keyLe).trans hp).trans (l2.perm_insertionSort keyLe).symm
  have hnd1 : ((sortFields l1).map Prod.fst).Nodup :=
    (((l1.perm_insertionSort keyLe).map Prod.fst).nodup_iff).mpr hnd
  have hnd2 : ((sortFields l2).map Prod.fst).Nodup :=
    ((((l2.perm_insertionSort keyLe).trans hp.symm).map Prod.fst).nodup_iff).mpr hnd
  have hlt1 : (sortFields l1).Pairwise keyLt :=
    ((l1.sorted_insertionSort keyLe).and (List.pairwise_map.mp hnd1)).imp
      (fun h => lt_of_le_of_ne h.1 h.2)
  have hlt2 : (sortFields l2).Pairwise keyLt :=
    ((l2.sorted_insertionSort keyLe).and (List.pairwise_map.mp hnd2)).imp
      (fun h => lt_of_le_of_ne h.1 h.2)
  exact List.eq_of_perm_of_sorted hperm hlt1 hlt2

/-- Two dicts whose key-sorted field lists agree serialize identically. -/
theorem dumpsSorted_obj_congr {l1 l2 : List (String × JsonValue)}
    (h : sortFields l1 = sortFields l2) :
    dumpsSorted (.obj l1) = dumpsSorted (.obj l2) := by
  rw [dumpsSorted, dumpsSorted, h]

namespace UdpNotifier

/-- The byte string fed to SHA-256 by
`ResponseChangeDetector._calculate_response_hash`
(src/modules/udp_notifier.py, lines 138-165): the empty string when the body
is `None`, the key-sorted JSON serialization when the body is a dict
(`json.dumps(response_body, sort_keys=True, ensure_ascii=False)`), and
`str(response_body)` otherwise. -/
def hashContent : Option JsonValue → String
  | none => ""
  | some (.obj fields) => dumpsSorted (.obj fields)
  | some v => pyStr v

/-- `ResponseChangeDetector._calculate_response_hash`: SHA-256 hex digest of
the canonical content string.  `sha256hex` stands for the (deterministic)
function `s ↦ hashlib.sha256(s.encode('utf-8')).hexdigest()`; the `None`
branch of the code hashes `b''`, which is `''.encode('utf-8')`. -/
def calculate_response_hash (sha256hex : String → String)
    (response_body : Option JsonValue) : String :=
  sha256hex (hashContent response_body)

end UdpNotifier

/-- Claim C4: for every pair of structurally-equal response bodies that are
structured objects with the same key/value pairs in different field orders
(i.e. permutations of each other, keys distinct), the change-detection hash
returns the same value; an absent (`None`) body hashes to the hash of the
empty value. -/
theorem response_hash_order_independent (sha256hex : String → String)
    (l1 l2 : List (String × JsonValue))
    (hp : l1.Perm l2) (hnd : (l1.map Prod.fst).Nodup) :
    UdpNotifier.calculate_response_hash sha256hex (some (.obj l1))
      = UdpNotifier.calculate_response_hash sha256hex (some (.obj l2))
    ∧ UdpNotifier.calculate_response_hash sha256hex none = sha256hex "" := by
  constructor
  · simp only [UdpNotifier.calculate_response_hash, UdpNotifier.hashContent]
    rw [dumpsSorted_obj_congr (sortFields_eq_of_perm l1 l2 hp hnd)]
  · rfl

/-- Witness for C4 at a concrete reordered pair of two-field objects. -/
theorem response_hash_order_independent_witness :
    ([(("b" : String), JsonValue.num 1), ("a", JsonValue.num 2)].Perm
      [("a", JsonValue.num 2), ("b", JsonValue.num 1)])
    ∧ ([(("b" : String), JsonValue.num 1), ("a", JsonValue.num 2)].map
        Prod.fst).Nodup
    ∧ (UdpNotifier.calculate_response_hash id
        (some (.obj [("b", JsonValue.num 1), ("a", JsonValue.num 2)]))
      = UdpNotifier.calculate_response_hash id
        (some (.obj [("a", JsonValue.num 2), ("b", JsonValue.num 1)]))
      ∧ UdpNotifier.calculate_response_hash id none = id "") :=
  ⟨List.Perm.swap _ _ _, by decide,
    response_hash_order_independent id _ _ (List.Perm.swap _ _ _) (by decide)⟩

namespace WebRequestClient

/-- What the wire produced for one attempt of
`WebRequestClient._execute_request` (src/modules/web_request_client.py):
either the transport layer raised (connection error, timeout, ...) or an
HTTP response came back with a status, reason phrase, parsed body
(JSON parse falling back to raw text is already folded into `JsonValue`),
headers and a measured response time. -/
inductive AttemptOutcome where
  | transportError (message : String)
  | response (status : Int) (reason : String) (body : JsonValue)
      (headers : List (String × String)) (response_time_ms : Int)

/-- The dict `_execute_request` returns on a non-error status (lines
218-225).  The `url`/`method` echo fields are not modelled; no claim
mentions them. -/
structure AttemptSuccess where
  status_code : Int
  response_body : JsonValue
  response_headers : List (String × String)
  response_time_ms : Int
deriving Repr

/-- Message of the `aiohttp.ClientResponseError` raised at line 210-216:
`f"HTTP {response.status}: {response.reason}"`. -/
def httpErrorMessage (status : Int) (reason : String) : String :=
  "HTTP " ++ toString status ++ ": " ++ reason

/-- `WebRequestClient._execute_request` as seen by its caller: a transport
error propagates as an exception, a status code `>= 400` is turned into an
exception (line 209), anything else returns the response record. -/
def execute_request : AttemptOutcome → Except String AttemptSuccess
  | .transportError m => .error m
  | .response status reason body headers rt =>
      if status ≥ 400 then .error (httpErrorMessage status reason)
      else .ok ⟨status, body, headers, rt⟩

/-- The result dict `WebRequestClient.send_request` returns (lines 56-124).
`timestamp` is the `start_time` sample; optional fields model the keys that
are `None` (or absent) in one of the two dict shapes. -/
structure RequestResult where
  request_id : String
  timestamp : Int
  attempt : Nat
  success : Bool
  error : Option String := none
  status_code : Option Int := none
  response_body : Option JsonValue := none
  response_headers : Option (List (String × String)) := none
  response_time_ms : Option Int := none
deriving Repr

/-- The success dict built at lines 93-99 (`result.update({...})`). -/
def successResult (rid : String) (ts : Int) (attempt : Nat)
    (r : AttemptSuccess) : RequestResult :=
  { request_id := rid, timestamp := ts, attempt := attempt, success := true,
    error := none, status_code := some r.status_code,
    response_body := some r.response_body,
    response_headers := some r.response_headers,
    response_time_ms := some r.response_time_ms }

/-- The failure dict returned at lines 114-124 after the last attempt. -/
def failureResult (rid : String) (ts : Int) (attempt : Nat)
    (e : String) : RequestResult :=
  { request_id := rid, timestamp := ts, attempt := attempt, success := false,
    error := some e, status_code := none, response_body := none,
    response_headers := none, response_time_ms := none }

/-- The `for attempt in range(retry_count + 1)` loop of `send_request`
(lines 81-124).  `env i` is what the wire does on the 0-based attempt `i`;
`remaining` counts the attempts still allowed after the current one
(`remaining = retry_count - attempt`), so `remaining > 0` is the
`attempt < retry_count` retry test of line 109.  Returns the result dict
together with the number of attempts actually performed. -/
def sendLoop (rid : String) (ts : Int) (env : Nat → AttemptOutcome)
    (attempt : Nat) : Nat → RequestResult × Nat
  | 0 =>
      match execute_request (env attempt) with
      | .ok r => (successResult rid ts (attempt + 1) r, 1)
      | .error e => (failureResult rid ts (attempt + 1) e, 1)
  | remaining + 1 =>
      match execute_request (env attempt) with
      | .ok r => (successResult rid ts (attempt + 1) r, 1)
      | .error _ =>
          let next := sendLoop rid ts env (attempt + 1) remaining
          (next.1, next.2 + 1)

/-- `WebRequestClient.send_request`: run the attempt loop from attempt 0
with `retry_count` retries allowed.  (The inter-attempt
`asyncio.sleep(retry_delay)` has no effect on the returned value.) -/
def send_request (rid : String) (ts : Int) (retry_count : Nat)
    (env : Nat → AttemptOutcome) : RequestResult × Nat :=
  sendLoop rid ts env 0 retry_count

/-- An attempt whose outcome `send_request` counts as failed: a transport
error (including timeouts) or an HTTP status `>= 400`. -/
def attemptFails : AttemptOutcome → Prop
  | .transportError _ => True
  | .response status _ _ _ _ => status ≥ 400

/-- The exception message a failed attempt produces. -/
def errorMessageOf : AttemptOutcome → String
  | .transportError m => m
  | .response status reason _ _ _ => httpErrorMessage status reason

theorem execute_request_of_fails {o : AttemptOutcome} (h : attemptFails o) :
    execute_request o = .error (errorMessageOf o) := by
  cases o with
  | transportError m => rfl
  | response status reason body headers rt =>
      have h' : status ≥ 400 := h
      simp only [execute_request, errorMessageOf]
      rw [if_pos h']

theorem sendLoop_all_fail (rid : String) (ts : Int)
    (env : Nat → AttemptOutcome) (h : ∀ i, attemptFails (env i)) :
    ∀ remaining attempt, sendLoop rid ts env attempt remaining
      = (failureResult rid ts (attempt + remaining + 1)
          (errorMessageOf (env (attempt + remaining))), remaining + 1) := by
  intro remaining
  induction remaining with
  | zero =>
      intro attempt
      simp [sendLoop, execute_request_of_fails (h attempt)]
  | succ n ih =>
      intro attempt
      have harith : attempt + 1 + n = attempt + (n + 1) := by omega
      have hstep := ih (attempt + 1)
      rw [harith] at hstep
      simp only [sendLoop, execute_request_of_fails (h attempt), hstep]

end WebRequestClient

/-- Claim C2: with `retry_count = n` against an endpoint where every attempt
fails (transport error, timeout, or HTTP status `>= 400`), `send_request`
makes exactly `n + 1` sequential attempts and returns (does not raise) a
result with `success = false`, `attempt = n + 1`, the last attempt's error
message, and `status_code`, `response_body`, `response_headers`,
`response_time_ms` all null. -/
theorem send_request_exhausts_retries (rid : String) (ts : Int)
    (retry_count : Nat) (env : Nat → WebRequestClient.AttemptOutcome)
    (h : ∀ i, WebRequestClient.attemptFails (env i)) :
    (WebRequestClient.send_request rid ts retry_count env).2 = retry_count + 1
    ∧ (WebRequestClient.send_request rid ts retry_count env).1.success = false
    ∧ (WebRequestClient.send_request rid ts retry_count env).1.attempt = retry_count + 1
    ∧ (WebRequestClient.send_request rid ts retry_count env).1.error
        = some (WebRequestClient.errorMessageOf (env retry_count))
    ∧ (WebRequestClient.send_request rid ts retry_count env).1.status_code = none
    ∧ (WebRequestClient.send_request rid ts retry_count env).1.response_body = none
    ∧ (WebRequestClient.send_request rid ts retry_count env).1.response_headers = none
    ∧ (WebRequestClient.send_request rid ts retry_count env).1.response_time_ms = none := by
  have hrun := WebRequestClient.sendLoop_all_fail rid ts env h retry_count 0
  simp only [WebRequestClient.send_request, hrun, Nat.zero_add]
  simp [WebRequestClient.failureResult]

/-- Witness for C2: `retry_count = 2` against a permanently refused
connection yields exactly 3 attempts and the failure shape. -/
theorem send_request_exhausts_retries_witness :
    (WebRequestClient.send_request "job1" 0 2
        (fun _ => .transportError "connection refused")).2 = 2 + 1
    ∧ (WebRequestClient.send_request "job1" 0 2
        (fun _ => .transportError "connection refused")).1.success = false
    ∧ (WebRequestClient.send_request "job1" 0 2
        (fun _ => .transportError "connection refused")).1.attempt = 2 + 1
    ∧ (WebRequestClient.send_request "job1" 0 2
        (fun _ => .transportError "connection refused")).1.error
        = some (WebRequestClient.errorMessageOf (.transportError "connection refused"))
    ∧ (WebRequestClient.send_request "job1" 0 2
        (fun _ => .transportError "connection refused")).1.status_code = none
    ∧ (WebRequestClient.send_request "job1" 0 2
        (fun _ => .transportError "connection refused")).1.response_body = none
    ∧ (WebRequestClient.send_request "job1" 0 2
        (fun _ => .transportError "connection refused")).1.response_headers = none
    ∧ (WebRequestClient.send_request "job1" 0 2
        (fun _ => .transportError "connection refused")).1.response_time_ms = none :=
  send_request_exhausts_retries "job1" 0 2
    (fun _ => .transportError "connection refused") (fun _ => trivial)

namespace WebRequestClient

/-- `key in body` / `body[key]` on an insertion-ordered dict. -/
def getKey : List (String × JsonValue) → String → Option JsonValue
  | [], _ => none
  | (k', v) :: rest, k => if k' = k then some v else getKey rest k

/-- `body[k] = v` on a dict that already contains `k`: the value is replaced
in place, the key keeps its position (dict keys are unique). -/
def setKey (fields : List (String × JsonValue)) (k : String) (v : JsonValue) :
    List (String × JsonValue) :=
  fields.map fun kv => if kv.1 = k then (k, v) else kv

/-- `body['timestamp'] == 'auto'` after `'timestamp' in body`. -/
def isAutoTimestamp : Option JsonValue → Bool
  | some (.str s) => s == "auto"
  | _ => false

/-- How one attempt's body is handed to `session.request`
(lines 155-168 of `_execute_request`): `data=None, json=None` for a `None`
body, `json=body` for a dict, `data=body` for a string, `data=str(body)`
otherwise. -/
inductive PreparedBody where
  | empty
  | jsonData (v : JsonValue)
  | rawData (s : String)
deriving Repr

/-- The body handling of `_execute_request` (lines 155-168) for one attempt.
`now` is the `datetime.now().isoformat()` sample of line 163.  The first
component is the state of the *body object itself* after the call: the
assignment `body['timestamp'] = datetime.now().isoformat()` mutates the dict
in place, and that dict is the very object stored under
`schedule_config['body']`, shared by all attempts of this execution and by
all later executions of the same job. -/
def prepareBody : Option JsonValue → String → Option JsonValue × PreparedBody
  | none, _ => (none, .empty)
  | some (.obj fields), now =>
      let fields' :=
        if isAutoTimestamp (getKey fields "timestamp")
        then setKey fields "timestamp" (.str now)
        else fields
      (some (.obj fields'), .jsonData (.obj fields'))
  | some (.str s), _ => (some (.str s), .rawData s)
  | some v, _ => (some v, .rawData (pyStr v))

/-- The body payloads of the successive attempts of one `send_request` call
(and, continued across calls, of successive executions of the same job):
each element of `nows` is the clock sample of one attempt, and the mutated
body object flows from each attempt into the next.  Returns the payload
each attempt serializes and the final state of the configured body. -/
def attemptPayloads :
    Option JsonValue → List String → List PreparedBody × Option JsonValue
  | body, [] => ([], body)
  | body, now :: nows =>
      let step := prepareBody body now
      let rest := attemptPayloads step.1 nows
      (step.2 :: rest.1, rest.2)

end WebRequestClient

/-- Claim C7 concerns a code bug: with the configured body
`{"timestamp": "auto"}` and two attempts whose clock samples are `"T1"` and
`"T2"`, the code serializes the FIRST attempt's timestamp on both attempts
(the second payload carries `"T1"`, not a fresh `"T2"`), and the configured
sentinel is permanently overwritten (the body stored in the job's config
ends as `{"timestamp": "T1"}`), because line 163 of
src/modules/web_request_client.py mutates the shared dict in place.  The
spec requires a fresh timestamp on every attempt with the sentinel left in
place for later executions. -/
theorem timestamp_auto_replaced_only_once :
    WebRequestClient.attemptPayloads
        (some (.obj [("timestamp", .str "auto")])) ["T1", "T2"]
      = ([.jsonData (.obj [("timestamp", .str "T1")]),
          .jsonData (.obj [("timestamp", .str "T1")])],
         some (.obj [("timestamp", .str "T1")]))
    ∧ ("T1" : String) ≠ "T2" :=
  ⟨rfl, by decide⟩

namespace RequestScheduler

/-- The fields of the schedule-config dict that
`src/modules/request_scheduler.py` reads.  `none` models an absent key
(`dict.get` returning `None`). -/
structure ScheduleConfig where
  id : Option String := none
  name : Option String := none
  enabled : Option Bool := none
  schedule_type : Option String := none
  interval_seconds : Option Int := none
  cron_expression : Option String := none
deriving Repr

/-- Python truthiness of `schedule_config.get('id')` (line 57-58:
`if not job_id`): an absent id and the empty string are both falsy. -/
def truthyId : Option String → Bool
  | none => false
  | some s => !(s == "")

/-- `RequestScheduler._calculate_next_run_time` (lines 278-312).
`cronNext e t` models `croniter.croniter(e, t).get_next(datetime)`, with
`none` standing for a raised exception; `now` is the
`datetime.now(timezone.utc)` sample taken only when `from_time` is `None`.
Times are UTC instants embedded as integers. -/
def calculate_next_run_time (cronNext : String → Int → Option Int)
    (cfg : ScheduleConfig) (from_time : Option Int) (now : Int) : Option Int :=
  let ft := from_time.getD now
  match cfg.schedule_type.getD "interval" with
  | "interval" =>
      match cfg.interval_seconds with
      | some n => if 0 < n then some (ft + n) else none
      | none => none
  | "cron" =>
      match cfg.cron_expression with
      | some e => if e = "" then none else cronNext e ft
      | none => none
  | _ => none

/-- What `_execute_job` stores in `job.last_result`: either the dict
returned by the request callback, or the locally built
`{'success': False, 'error': str(e), 'timestamp': ...}` dict when the
callback raised (lines 255-261). -/
inductive LastResult where
  | fromCallback (result : WebRequestClient.RequestResult)
  | fromException (error : String) (timestamp : Int)
deriving Repr

/-- The `ScheduleJob` dataclass (lines 16-28); the `task` handle has no
pure content and is not modelled. -/
structure ScheduleJob where
  id : String
  name : String
  schedule_config : ScheduleConfig
  next_run_time : Option Int := none
  last_run_time : Option Int := none
  is_running : Bool := false
  run_count : Nat := 0
  error_count : Nat := 0
  last_result : Option LastResult := none
deriving Repr

/-- The scheduler's mutable state: the insertion-ordered job registry
(`self.jobs`, a dict keyed by job id) and the running flag. -/
structure SchedulerState where
  jobs : List (String × ScheduleJob) := []
  is_running : Bool := false
deriving Repr

/-- `RequestScheduler.remove_schedule` (lines 89-111): false if the id is
unknown, otherwise cancel the task (no pure content) and delete the entry. -/
def remove_schedule (st : SchedulerState) (job_id : String) :
    SchedulerState × Bool :=
  if (st.jobs.lookup job_id).isSome then
    ({ st with jobs := st.jobs.filter fun p => p.1 != job_id }, true)
  else (st, false)

/-- `RequestScheduler.add_schedule` (lines 47-87), in source order: reject a
falsy id; accept-without-storing a disabled config; remove any existing job
with the same id; compute the next run time from the current time and fail
if that yields `None`; otherwise register the new job. -/
def add_schedule (cronNext : String → Int → Option Int)
    (st : SchedulerState) (cfg : ScheduleConfig) (now : Int) :
    SchedulerState × Bool :=
  if !truthyId cfg.id then (st, false)
  else
    let job_id := cfg.id.getD ""
    if !(cfg.enabled.getD true) then (st, true)
    else
      let st1 := if (st.jobs.lookup job_id).isSome
        then (remove_schedule st job_id).1 else st
      match calculate_next_run_time cronNext cfg none now with
      | none => (st1, false)
      | some t =>
          let job : ScheduleJob :=
            { id := job_id, name := cfg.name.getD job_id,
              schedule_config := cfg, next_run_time := some t }
          ({ st1 with jobs := st1.jobs ++ [(job_id, job)] }, true)

/-- `RequestScheduler._execute_job` (lines 230-276) acting on one job.
`t_start` is the `datetime.now(timezone.utc)` sample taken at entry (line
238, stored into `last_run_time` before the request runs); `outcome` is
what the awaited request callback did (returned a result dict, or raised
with a message and the clock sample of line 260); `t_finally` is the wall
clock at the moment the `finally` block recomputes the next run time — it
is only consulted by `_calculate_next_run_time` when `from_time` is `None`,
which cannot happen here because `last_run_time` was just set: the next run
is always based on the start sample `t_start`, never on the completion
time. -/
def execute_job (cronNext : String → Int → Option Int) (job : ScheduleJob)
    (t_start : Int) (outcome : Except (String × Int) WebRequestClient.RequestResult)
    (t_finally : Int) : ScheduleJob :=
  let j1 := { job with is_running := true, last_run_time := some t_start }
  let j2 := match outcome with
    | .ok result =>
        { j1 with
          last_result := some (.fromCallback result),
          run_count := j1.run_count + 1,
          error_count :=
            if result.success then j1.error_count else j1.error_count + 1 }
    | .error (e, t_exc) =>
        { j1 with
          error_count := j1.error_count + 1,
          last_result := some (.fromException e t_exc) }
  { j2 with
    is_running := false,
    next_run_time :=
      calculate_next_run_time cronNext j2.schedule_config j2.last_run_time t_finally }

/-- A cron evaluator for concrete instances; never consulted by interval
jobs. -/
def noCron : String → Int → Option Int := fun _ _ => none

/-- A concrete registered interval job (interval 60s). -/
def intervalJob : ScheduleJob :=
  { id := "j", name := "j",
    schedule_config :=
      { id := some "j", schedule_type := some "interval",
        interval_seconds := some 60 },
    next_run_time := some 60 }

/-- A concrete successful callback result. -/
def doneResult : WebRequestClient.RequestResult :=
  { request_id := "j", timestamp := 100, attempt := 1, success := true,
    status_code := some 200, response_body := some (.str "ok"),
    response_headers := some [], response_time_ms := some 5 }

/-- A registry holding the interval job under its id. -/
def regWithJ : SchedulerState := { jobs := [("j", intervalJob)] }

/-- A config for the same id whose schedule cannot be parsed into a next
run time (`schedule_type = 'interval'` with no `interval_seconds`). -/
def badIntervalCfg : ScheduleConfig :=
  { id := some "j", schedule_type := some "interval" }

end RequestScheduler

/-- Removing every pair keyed `jid` makes `jid` unfindable. -/
theorem lookup_erase_self {β : Type} (jid : String) (l : List (String × β)) :
    (l.filter fun p => p.1 != jid).lookup jid = none := by
  induction l with
  | nil => rfl
  | cons p rest ih =>
      obtain ⟨k, v⟩ := p
      by_cases hk : k = jid
      · subst hk
        simpa using ih
      · have hkeep : (k != jid) = true := by simp [hk]
        have hne : (jid == k) = false := by simp [Ne.symm hk]
        simp [List.filter_cons, hkeep, List.lookup, hne, ih]

/-- Removing every pair keyed `jid` leaves lookups of other keys alone. -/
theorem lookup_erase_ne {β : Type} (jid k : String) (hk : k ≠ jid)
    (l : List (String × β)) :
    (l.filter fun p => p.1 != jid).lookup k = l.lookup k := by
  induction l with
  | nil => rfl
  | cons p rest ih =>
      obtain ⟨k', v⟩ := p
      by_cases hk' : k' = jid
      · subst hk'
        have hne : (k == k') = false := by simp [hk]
        simp [List.filter_cons, List.lookup, hne, ih]
      · have hkeep : (k' != jid) = true := by simp [hk']
        simp only [List.filter_cons, hkeep, if_true, List.lookup]
        by_cases hkk : k == k'
        · simp [hkk]
        · simp [hkk, ih]

/-- Claim C1 is false on the code: for a registered 60-second interval job,
an execution that starts at time 100 and completes at time 105 ends with
`next_run_time = 160` (start + interval), not `165` (completion +
interval): `_execute_job` recomputes from `last_run_time`, which was set at
entry. -/
theorem next_run_time_ignores_completion_time :
    (RequestScheduler.execute_job RequestScheduler.noCron
        RequestScheduler.intervalJob 100 (.ok RequestScheduler.doneResult)
        105).next_run_time = some 160
    ∧ some (160 : Int) ≠ some ((105 : Int) + 60) :=
  ⟨rfl, by decide⟩

/-- Claim C1 as amended: for every job with `schedule_type = interval` and a
positive `interval_seconds = n`, completing an execution (successful,
failed, or raising) that STARTED at time `t_start` sets
`next_run_time = t_start + n` — the base point is the execution's start
timestamp (the recorded `last_run_time`), not its completion time and not
the originally scheduled time. -/
theorem next_run_time_from_start_time
    (cronNext : String → Int → Option Int)
    (job : RequestScheduler.ScheduleJob) (t_start : Int)
    (outcome : Except (String × Int) WebRequestClient.RequestResult)
    (t_finally : Int) (n : Int)
    (htype : job.schedule_config.schedule_type.getD "interval" = "interval")
    (hn : job.schedule_config.interval_seconds = some n) (hpos : 0 < n) :
    (RequestScheduler.execute_job cronNext job t_start outcome t_finally).next_run_time
      = some (t_start + n)
    ∧ (RequestScheduler.execute_job cronNext job t_start outcome t_finally).last_run_time
      = some t_start
    ∧ (RequestScheduler.execute_job cronNext job t_start outcome t_finally).is_running
      = false := by
  cases outcome with
  | ok r =>
      simp [RequestScheduler.execute_job,
        RequestScheduler.calculate_next_run_time, htype, hn, hpos]
  | error p =>
      simp [RequestScheduler.execute_job,
        RequestScheduler.calculate_next_run_time, htype, hn, hpos]

/-- Witness for the amended C1 at the concrete interval job. -/
theorem next_run_time_from_start_time_witness :
    RequestScheduler.intervalJob.schedule_config.schedule_type.getD "interval"
      = "interval"
    ∧ RequestScheduler.intervalJob.schedule_config.interval_seconds = some 60
    ∧ (0 : Int) < 60
    ∧ ((RequestScheduler.execute_job RequestScheduler.noCron
          RequestScheduler.intervalJob 100 (.ok RequestScheduler.doneResult)
          105).next_run_time = some (100 + 60)
       ∧ (RequestScheduler.execute_job RequestScheduler.noCron
          RequestScheduler.intervalJob 100 (.ok RequestScheduler.doneResult)
          105).last_run_time = some 100
       ∧ (RequestScheduler.execute_job RequestScheduler.noCron
          RequestScheduler.intervalJob 100 (.ok RequestScheduler.doneResult)
          105).is_running = false) :=
  ⟨rfl, rfl, by decide,
    next_run_time_from_start_time RequestScheduler.noCron
      RequestScheduler.intervalJob 100 (.ok RequestScheduler.doneResult)
      105 60 rfl rfl (by decide)⟩

/-- Claim C6 is false on the code: starting from a registry holding job
`"j"`, `add_schedule` with a same-id config whose schedule is invalid
returns failure — but the previously registered job is gone: the code
removes the existing job BEFORE computing (and failing to compute) the new
next run time. -/
theorem add_schedule_failure_removes_existing_job :
    (RequestScheduler.add_schedule RequestScheduler.noCron
        RequestScheduler.regWithJ RequestScheduler.badIntervalCfg 0).2 = false
    ∧ (RequestScheduler.add_schedule RequestScheduler.noCron
        RequestScheduler.regWithJ RequestScheduler.badIntervalCfg 0).1.jobs.lookup "j"
      = none
    ∧ RequestScheduler.regWithJ.jobs.lookup "j" = some RequestScheduler.intervalJob :=
  ⟨rfl, rfl, rfl⟩

/-- Claim C6 as amended: when `add_schedule` fails because the id is
missing or empty, the registry is unchanged; but when it fails computing
the next run time (invalid or unparsable schedule) for an enabled config,
the result registry no longer contains the config's id — an existing job
under that id has been removed first — while all other jobs are untouched.
Replacement of an existing job is therefore NOT atomic on failure. -/
theorem add_schedule_failure_not_atomic
    (cronNext : String → Int → Option Int)
    (st : RequestScheduler.SchedulerState)
    (cfg : RequestScheduler.ScheduleConfig) (now : Int) :
    (RequestScheduler.truthyId cfg.id = false →
      RequestScheduler.add_schedule cronNext st cfg now = (st, false))
    ∧ (RequestScheduler.truthyId cfg.id = true →
       cfg.enabled.getD true = true →
       RequestScheduler.calculate_next_run_time cronNext cfg none now = none →
       (RequestScheduler.add_schedule cronNext st cfg now).2 = false
       ∧ (RequestScheduler.add_schedule cronNext st cfg now).1.jobs.lookup
           (cfg.id.getD "") = none
       ∧ ∀ k, k ≠ cfg.id.getD "" →
           (RequestScheduler.add_schedule cronNext st cfg now).1.jobs.lookup k
             = st.jobs.lookup k) := by
  constructor
  · intro h
    simp [RequestScheduler.add_schedule, h]
  · intro hid hen hcalc
    cases hmem : st.jobs.lookup (cfg.id.getD "") with
    | some job =>
        have hadd : RequestScheduler.add_schedule cronNext st cfg now
            = ({ st with jobs := st.jobs.filter fun p => p.1 != cfg.id.getD "" },
               false) := by
          simp [RequestScheduler.add_schedule, RequestScheduler.remove_schedule,
            hid, hen, hcalc, hmem]
        rw [hadd]
        exact ⟨rfl, lookup_erase_self _ _, fun k hk => lookup_erase_ne _ k hk _⟩
    | none =>
        have hadd : RequestScheduler.add_schedule cronNext st cfg now
            = (st, false) := by
          simp [RequestScheduler.add_schedule, hid, hen, hcalc, hmem]
        rw [hadd]
        exact ⟨rfl, hmem, fun k _ => rfl⟩

/-- Witness for the amended C6: failing same-id add drops job `"j"` and
leaves key `"other"` alone; a missing-id add leaves the state untouched. -/
theorem add_schedule_failure_not_atomic_witness :
    (RequestScheduler.add_schedule RequestScheduler.noCron
        RequestScheduler.regWithJ { enabled := some true } 0
      = (RequestScheduler.regWithJ, false))
    ∧ (RequestScheduler.add_schedule RequestScheduler.noCron
        RequestScheduler.regWithJ RequestScheduler.badIntervalCfg 0).2 = false
    ∧ (RequestScheduler.add_schedule RequestScheduler.noCron
        RequestScheduler.regWithJ RequestScheduler.badIntervalCfg 0).1.jobs.lookup "j"
      = none
    ∧ (RequestScheduler.add_schedule RequestScheduler.noCron
        RequestScheduler.regWithJ RequestScheduler.badIntervalCfg 0).1.jobs.lookup "other"
      = RequestScheduler.regWithJ.jobs.lookup "other" :=
  ⟨(add_schedule_failure_not_atomic RequestScheduler.noCron
      RequestScheduler.regWithJ { enabled := some true } 0).1 rfl,
   ((add_schedule_failure_not_atomic RequestScheduler.noCron
      RequestScheduler.regWithJ RequestScheduler.badIntervalCfg 0).2 rfl rfl rfl).1,
   ((add_schedule_failure_not_atomic RequestScheduler.noCron
      RequestScheduler.regWithJ RequestScheduler.badIntervalCfg 0).2 rfl rfl rfl).2.1,
   ((add_schedule_failure_not_atomic RequestScheduler.noCron
      RequestScheduler.regWithJ RequestScheduler.badIntervalCfg 0).2 rfl rfl rfl).2.2
     "other" (by decide)⟩

/-- Claim C10 is false as universally stated: a config with
`enabled = false` but a missing id makes `add_schedule` return failure
(the falsy-id check at line 57-60 precedes the enabled check), not
success.  The registry is still left unchanged. -/
theorem add_schedule_disabled_missing_id_fails :
    (RequestScheduler.add_schedule RequestScheduler.noCron {}
        { enabled := some false } 0).2 = false
    ∧ (RequestScheduler.add_schedule RequestScheduler.noCron {}
        { enabled := some false } 0).1 = {} :=
  ⟨rfl, rfl⟩

/-- Claim C10 as amended: provided the config's id is present and
non-empty, `add_schedule` with `enabled = false` returns success while
leaving the whole scheduler state unchanged — the disabled config is never
stored, and an already-registered job with the same id keeps its old
config and `next_run_time`; with a missing/empty id it returns failure,
the registry again unchanged. -/
theorem add_schedule_disabled_is_noop
    (cronNext : String → Int → Option Int)
    (st : RequestScheduler.SchedulerState)
    (cfg : RequestScheduler.ScheduleConfig) (now : Int) :
    (RequestScheduler.truthyId cfg.id = true →
      cfg.enabled.getD true = false →
      RequestScheduler.add_schedule cronNext st cfg now = (st, true))
    ∧ (RequestScheduler.truthyId cfg.id = false →
      RequestScheduler.add_schedule cronNext st cfg now = (st, false)) := by
  constructor
  · intro hid hdis
    simp [RequestScheduler.add_schedule, hid, hdis]
  · intro hid
    simp [RequestScheduler.add_schedule, hid]

/-- Witness for the amended C10 at a registry already holding job `"j"`. -/
theorem add_schedule_disabled_is_noop_witness :
    (RequestScheduler.add_schedule RequestScheduler.noCron
        RequestScheduler.regWithJ { id := some "j", enabled := some false } 0
      = (RequestScheduler.regWithJ, true))
    ∧ (RequestScheduler.add_schedule RequestScheduler.noCron
        RequestScheduler.regWithJ { enabled := some false } 0
      = (RequestScheduler.regWithJ, false)) :=
  ⟨(add_schedule_disabled_is_noop RequestScheduler.noCron
      RequestScheduler.regWithJ { id := some "j", enabled := some false } 0).1
      rfl rfl,
   (add_schedule_disabled_is_noop RequestScheduler.noCron
      RequestScheduler.regWithJ { enabled := some false } 0).2 rfl⟩

namespace UdpNotifier

/-- The notification-relevant flags of the UDP config dict read by
`ResponseChangeDetector` (src/modules/udp_notifier.py); `none` models an
absent key, so each `dict.get` default is applied at the use site. -/
structure UdpConfig where
  enabled : Option Bool := none
  notify_on_success : Option Bool := none
  notify_on_failure : Option Bool := none
  notify_on_response_change : Option Bool := none
deriving Repr

/-- The part of a notification message the checked claims inspect:
its `notification_type` plus identifying/additional data. -/
structure Notification where
  notification_type : String
  request_id : String
  error_message : Option String := none
deriving Repr, DecidableEq

/-- The detector's in-memory state: `self.response_hashes`
(dict job id → hash, insertion-ordered) and `self.notified_errors`
(set of open failure dedupe keys, modelled as a duplicate-free list). -/
structure DetectorState where
  response_hashes : List (String × String) := []
  notified_errors : List String := []
deriving Repr

/-- `self.response_hashes[request_id] = current_hash`: replace the value in
place if the key exists, append otherwise (Python dict assignment). -/
def setHash (hashes : List (String × String)) (rid h : String) :
    List (String × String) :=
  if (hashes.lookup rid).isSome then
    hashes.map fun p => cond (p.1 == rid) (rid, h) p
  else hashes ++ [(rid, h)]

/-- `ResponseChangeDetector._handle_success_response` (lines 73-110):
compute the content hash, read the previous hash, derive
`is_first_run` / `is_response_changed` exactly as the Python truthiness
does (`previous_hash and previous_hash != current_hash` is falsy when the
previous hash is the empty string), store the new hash unconditionally,
then pick the notification type from the config flags (note the different
`notify_on_success` defaults of lines 93 and 99). -/
def handle_success_response (sha256hex : String → String) (cfg : UdpConfig)
    (st : DetectorState) (result : WebRequestClient.RequestResult) :
    DetectorState × Option Notification :=
  let rid := result.request_id
  let current_hash := calculate_response_hash sha256hex result.response_body
  let previous_hash := st.response_hashes.lookup rid
  let is_first_run : Bool := previous_hash.isNone
  let is_response_changed : Bool :=
    match previous_hash with
    | none => false
    | some p => if p = "" then false else decide (p ≠ current_hash)
  let st' := { st with
    response_hashes := setHash st.response_hashes rid current_hash }
  let notif : Option Notification :=
    if is_first_run && cfg.notify_on_success.getD true then
      some { notification_type := "first_success", request_id := rid }
    else if is_response_changed && cfg.notify_on_response_change.getD true then
      some { notification_type := "response_changed", request_id := rid }
    else if !is_response_changed && cfg.notify_on_success.getD false then
      some { notification_type := "success_no_change", request_id := rid }
    else none
  (st', notif)

/-- `ResponseChangeDetector._handle_failure_response` (lines 112-130):
dedupe on the composite key `f"{request_id}_{error}"`, notify once. -/
def handle_failure_response (cfg : UdpConfig) (st : DetectorState)
    (result : WebRequestClient.RequestResult) :
    DetectorState × Option Notification :=
  if !(cfg.notify_on_failure.getD true) then (st, none)
  else
    let rid := result.request_id
    let error_key := rid ++ "_" ++ result.error.getD "unknown_error"
    if st.notified_errors.contains error_key then (st, none)
    else
      ({ st with notified_errors := st.notified_errors ++ [error_key] },
       some { notification_type := "failure", request_id := rid,
              error_message := some (result.error.getD "Unknown error") })

/-- `ResponseChangeDetector.process_request_result` (lines 42-71): nothing
happens when the notifier is disabled; a success is classified and then the
recovery check tests `request_id in self.notified_errors` (the BARE job id,
line 61) and on a hit removes it and sends a recovery notification; a
failure goes through the dedupe path.  Returns the new state and the
notifications sent, in order. -/
def process_request_result (sha256hex : String → String) (cfg : UdpConfig)
    (st : DetectorState) (result : WebRequestClient.RequestResult) :
    DetectorState × List Notification :=
  if !(cfg.enabled.getD true) then (st, [])
  else
    let rid := result.request_id
    if result.success then
      let step := handle_success_response sha256hex cfg st result
      if step.1.notified_errors.contains rid then
        ({ step.1 with
            notified_errors := step.1.notified_errors.filter (· != rid) },
         step.2.toList ++
           [{ notification_type := "recovery", request_id := rid }])
      else (step.1, step.2.toList)
    else
      let step := handle_failure_response cfg st result
      (step.1, step.2.toList)

/-- A failure result for job `job1` with error message `boom`. -/
def failResultJob1 : WebRequestClient.RequestResult :=
  { request_id := "job1", timestamp := 0, attempt := 3, success := false,
    error := some "boom" }

/-- A subsequent successful result for job `job1`. -/
def okResultJob1 : WebRequestClient.RequestResult :=
  { request_id := "job1", timestamp := 10, attempt := 1, success := true,
    status_code := some 200, response_body := some (.str "ok"),
    response_headers := some [], response_time_ms := some 7 }

/-- Detector state after `job1`'s failure was processed from scratch. -/
def stAfterFailure : DetectorState :=
  (process_request_result id {} {} failResultJob1).1

/-- Detector state after the subsequent success of `job1`. -/
def stAfterRecoveryAttempt : DetectorState :=
  (process_request_result id {} stAfterFailure okResultJob1).1

end UdpNotifier

/-- Claim C5 names a code bug: after `job1` fails with error `boom` the open
dedupe key is the composite `"job1_boom"`, but the success path tests the
bare id `"job1"` against the key set — so the next success emits NO
recovery notification and does NOT clear the key, and a later identical
failure is still suppressed.  This evaluation exhibits all three facts
(the second component lists the notification types actually sent). -/
theorem recovery_never_fires :
    (UdpNotifier.process_request_result id {} {} UdpNotifier.failResultJob1).2.map
        (fun n => n.notification_type) = ["failure"]
    ∧ UdpNotifier.stAfterFailure.notified_errors = ["job1_boom"]
    ∧ (UdpNotifier.process_request_result id {} UdpNotifier.stAfterFailure
        UdpNotifier.okResultJob1).2.map (fun n => n.notification_type)
      = ["first_success"]
    ∧ UdpNotifier.stAfterRecoveryAttempt.notified_errors = ["job1_boom"]
    ∧ (UdpNotifier.process_request_result id {} UdpNotifier.stAfterRecoveryAttempt
        UdpNotifier.failResultJob1).2 = [] :=
  ⟨rfl, rfl, rfl, rfl, rfl⟩

/-- Replacing the value stored under a present key makes it the looked-up
value. -/
theorem lookup_map_replace (rid h : String) (l : List (String × String))
    (hp : (l.lookup rid).isSome = true) :
    (l.map fun p => cond (p.1 == rid) (rid, h) p).lookup rid = some h := by
  induction l with
  | nil => simp [List.lookup] at hp
  | cons p rest ih =>
      obtain ⟨k, v⟩ := p
      by_cases hk : k = rid
      · subst hk
        simp [List.lookup]
      · have hne : (rid == k) = false := by simp [Ne.symm hk]
        have hne' : (k == rid) = false := by simp [hk]
        simp only [List.lookup, hne] at hp
        simp [List.map_cons, hne', List.lookup, hne, ih hp]

/-- Appending a fresh key to a map that lacks it makes it the looked-up
value. -/
theorem lookup_append_fresh (rid h : String) (l : List (String × String))
    (hp : l.lookup rid = none) :
    (l ++ [(rid, h)]).lookup rid = some h := by
  induction l with
  | nil => simp [List.lookup]
  | cons p rest ih =>
      obtain ⟨k, v⟩ := p
      by_cases hk : (rid == k) = true
      · simp [List.lookup, hk] at hp
      · simp only [List.lookup, Bool.not_eq_true] at hk
        simp only [List.lookup, hk] at hp
        simp only [List.cons_append, List.lookup, hk]
        exact ih hp

/-- After `setHash`, the stored hash for the job is the new one. -/
theorem lookup_setHash_self (rid h : String) (l : List (String × String)) :
    (UdpNotifier.setHash l rid h).lookup rid = some h := by
  unfold UdpNotifier.setHash
  cases hp : l.lookup rid with
  | some v =>
      simp only [hp, Option.isSome_some, if_true]
      exact lookup_map_replace rid h l (by simp [hp])
  | none =>
      simp only [hp, Option.isSome_none, Bool.false_eq_true, if_false]
      exact lookup_append_fresh rid h l hp

/-- Claim C8: for a job with no previously stored hash and the detector's
default success-notification setting, two consecutive successful results
with identical response bodies classify as `first_success` on the first
and on the second never as `response_changed` — it is the unchanged case,
notified as `success_no_change` only when `notify_on_success` is
explicitly configured; the new hash is stored unconditionally after each
classification. -/
theorem first_success_then_unchanged (sha256hex : String → String)
    (cfg : UdpNotifier.UdpConfig) (st : UdpNotifier.DetectorState)
    (r1 r2 : WebRequestClient.RequestResult)
    (hrid : r2.request_id = r1.request_id)
    (hbody : r2.response_body = r1.response_body)
    (hno : st.response_hashes.lookup r1.request_id = none)
    (hflag : cfg.notify_on_success.getD true = true) :
    ((UdpNotifier.handle_success_response sha256hex cfg st r1).2.map
        (fun n => n.notification_type) = some "first_success")
    ∧ ((UdpNotifier.handle_success_response sha256hex cfg st r1).1.response_hashes.lookup
        r1.request_id
      = some (UdpNotifier.calculate_response_hash sha256hex r1.response_body))
    ∧ ((UdpNotifier.handle_success_response sha256hex cfg
          (UdpNotifier.handle_success_response sha256hex cfg st r1).1 r2).2.map
        (fun n => n.notification_type)
      = if cfg.notify_on_success.getD false then some "success_no_change" else none)
    ∧ ((UdpNotifier.handle_success_response sha256hex cfg
          (UdpNotifier.handle_success_response sha256hex cfg st r1).1 r2).2.map
        (fun n => n.notification_type) ≠ some "response_changed")
    ∧ ((UdpNotifier.handle_success_response sha256hex cfg
          (UdpNotifier.handle_success_response sha256hex cfg st r1).1 r2).1.response_hashes.lookup
        r1.request_id
      = some (UdpNotifier.calculate_response_hash sha256hex r1.response_body)) := by
  have hst1 : (UdpNotifier.handle_success_response sha256hex cfg st r1).1
      = { st with response_hashes :=
            (UdpNotifier.setHash st.response_hashes r1.request_id
              (UdpNotifier.calculate_response_hash sha256hex r1.response_body)) } := by
    simp [UdpNotifier.handle_success_response]
  have hn1 : (UdpNotifier.handle_success_response sha256hex cfg st r1).2
      = some { notification_type := "first_success",
               request_id := r1.request_id } := by
    simp [UdpNotifier.handle_success_response, hno, hflag]
  have hlook : (UdpNotifier.setHash st.response_hashes r1.request_id
      (UdpNotifier.calculate_response_hash sha256hex r1.response_body)).lookup
        r1.request_id
      = some (UdpNotifier.calculate_response_hash sha256hex r1.response_body) :=
    lookup_setHash_self _ _ _
  have hcur2 : UdpNotifier.calculate_response_hash sha256hex r2.response_body
      = UdpNotifier.calculate_response_hash sha256hex r1.response_body := by
    rw [hbody]
  have hn2 : (UdpNotifier.handle_success_response sha256hex cfg
        (UdpNotifier.handle_success_response sha256hex cfg st r1).1 r2).2
      = if cfg.notify_on_success.getD false then
          some { notification_type := "success_no_change",
                 request_id := r2.request_id }
        else none := by
    rw [hst1]
    simp only [UdpNotifier.handle_success_response, hrid, hcur2, hlook]
    by_cases hc :
        UdpNotifier.calculate_response_hash sha256hex r1.response_body = ""
    · simp [hc]
    · simp [hc]
  have hst2 : (UdpNotifier.handle_success_response sha256hex cfg
        (UdpNotifier.handle_success_response sha256hex cfg st r1).1 r2).1.response_hashes
      = UdpNotifier.setHash
          (UdpNotifier.setHash st.response_hashes r1.request_id
            (UdpNotifier.calculate_response_hash sha256hex r1.response_body))
          r2.request_id
          (UdpNotifier.calculate_response_hash sha256hex r2.response_body) := by
    rw [hst1]
    simp [UdpNotifier.handle_success_response]
  refine ⟨by rw [hn1]; rfl, by rw [hst1]; exact hlook, ?_, ?_, ?_⟩
  · rw [hn2]
    by_cases hf : cfg.notify_on_success.getD false <;> simp [hf]
  · rw [hn2]
    by_cases hf : cfg.notify_on_success.getD false <;> simp [hf]
  · rw [hst2, hcur2, hrid]
    exact lookup_setHash_self _ _ _

/-- Witness for C8: the empty detector under the default config sees the
same successful `job1` result twice. -/
theorem first_success_then_unchanged_witness :
    (({} : UdpNotifier.DetectorState).response_hashes.lookup "job1" = none)
    ∧ (({} : UdpNotifier.UdpConfig).notify_on_success.getD true = true)
    ∧ ((UdpNotifier.handle_success_response id {} {} UdpNotifier.okResultJob1).2.map
        (fun n => n.notification_type) = some "first_success")
    ∧ ((UdpNotifier.handle_success_response id {} {} UdpNotifier.okResultJob1).1.response_hashes.lookup
        "job1"
      = some (UdpNotifier.calculate_response_hash id (some (.str "ok"))))
    ∧ ((UdpNotifier.handle_success_response id {}
          (UdpNotifier.handle_success_response id {} {} UdpNotifier.okResultJob1).1
          UdpNotifier.okResultJob1).2.map (fun n => n.notification_type)
      = if (({} : UdpNotifier.UdpConfig).notify_on_success.getD false) then
          some "success_no_change" else none)
    ∧ ((UdpNotifier.handle_success_response id {}
          (UdpNotifier.handle_success_response id {} {} UdpNotifier.okResultJob1).1
          UdpNotifier.okResultJob1).2.map (fun n => n.notification_type)
      ≠ some "response_changed")
    ∧ ((UdpNotifier.handle_success_response id {}
          (UdpNotifier.handle_success_response id {} {} UdpNotifier.okResultJob1).1
          UdpNotifier.okResultJob1).1.response_hashes.lookup "job1"
      = some (UdpNotifier.calculate_response_hash id (some (.str "ok")))) :=
  ⟨rfl, rfl,
    (first_success_then_unchanged id {} {} UdpNotifier.okResultJob1
      UdpNotifier.okResultJob1 rfl rfl rfl rfl).1,
    (first_success_then_unchanged id {} {} UdpNotifier.okResultJob1
      UdpNotifier.okResultJob1 rfl rfl rfl rfl).2.1,
    (first_success_then_unchanged id {} {} UdpNotifier.okResultJob1
      UdpNotifier.okResultJob1 rfl rfl rfl rfl).2.2.1,
    (first_success_then_unchanged id {} {} UdpNotifier.okResultJob1
      UdpNotifier.okResultJob1 rfl rfl rfl rfl).2.2.2.1,
    (first_success_then_unchanged id {} {} UdpNotifier.okResultJob1
      UdpNotifier.okResultJob1 rfl rfl rfl rfl).2.2.2.2⟩

namespace UdpClient

/-- `DelayedUDPSender` (src/modules/communication/udp_client.py, lines
28-38): `delay` plus the one shared timer, modelled as the scheduled fire
instant and the pending message (`none` when nothing is pending).
A `ResponseChangeDetector` owns exactly one such sender, shared by all
jobs it handles. -/
structure DelayedUDPSender (α : Type) where
  delay : Int
  timer : Option (Int × α) := none

/-- `DelayedUDPSender.send_message` called at wall-clock instant `now`:
whatever timer was pending is cancelled (`self.timer.cancel()`) and a fresh
timer is armed to transmit `message` at `now + delay`. -/
def send_message {α : Type} (s : DelayedUDPSender α) (now : Int)
    (message : α) : DelayedUDPSender α :=
  { s with timer := some (now + s.delay, message) }

/-- The datagrams actually transmitted for a time-ordered burst of
`send_message` calls `(tᵢ, mᵢ)`: the timer armed at `tᵢ` fires (and `send`
transmits `mᵢ`) unless the next call arrives strictly before `tᵢ + delay`,
in which case it is cancelled and replaced.  Only the immediately
following call can cancel a timer, because each call replaces the single
shared timer; the last call's timer always fires. -/
def transmissions {α : Type} (delay : Int) : List (Int × α) → List α
  | [] => []
  | [(_, m)] => [m]
  | (t, m) :: (t', m') :: rest =>
      if t' < t + delay then transmissions delay ((t', m') :: rest)
      else m :: transmissions delay ((t', m') :: rest)

end UdpClient

/-- Claim C3: every `send_message` call cancels the single shared pending
timer and re-arms it with the newest message (whatever was pending before);
consequently two notify-worthy events (from the same or different jobs)
arriving within the configured delay window produce exactly one transmitted
datagram, carrying the later event's payload. -/
theorem debounce_coalesces {α : Type} (s : UdpClient.DelayedUDPSender α)
    (now : Int) (message : α) (delay t1 t2 : Int) (m1 m2 : α)
    (horder : t1 ≤ t2) (hwindow : t2 < t1 + delay) :
    (UdpClient.send_message s now message).timer = some (now + s.delay, message)
    ∧ UdpClient.transmissions delay [(t1, m1), (t2, m2)] = [m2] := by
  refine ⟨rfl, ?_⟩
  simp [UdpClient.transmissions, hwindow]

/-- Witness for C3: a sender with a pending timer re-armed, and two events
3 time units apart under a 10-unit delay yielding only the later payload. -/
theorem debounce_coalesces_witness :
    (0 : Int) ≤ 3 ∧ (3 : Int) < 0 + 10
    ∧ ((UdpClient.send_message
          (⟨10, some (2, "old")⟩ : UdpClient.DelayedUDPSender String) 5
          "new").timer = some (5 + 10, "new")
       ∧ UdpClient.transmissions 10 [((0 : Int), "a"), (3, "b")] = ["b"]) :=
  ⟨by decide, by decide,
    debounce_coalesces ⟨10, some (2, "old")⟩ 5 "new" 10 0 3 "a" "b"
      (by decide) (by decide)⟩

namespace RequestLogger

/-- A value the code can leave in the `average_response_time_ms` cell.
SQLite cells are dynamically typed: besides the REAL the schema intends,
`_update_schedule_stats` can store a TEXT timestamp there (see below).
REALs are modelled as exact rationals. -/
inductive StoredAvg where
  | num (q : ℚ)
  | text (s : String)
deriving Repr, DecidableEq

/-- Python `existing_stats[7] or 0`, where `existing_stats[7]` is the
`last_failure_time` cell: `None` and the empty string are falsy and give
`0`; any other string is returned as is. -/
def orZero : Option String → StoredAvg
  | none => .num 0
  | some "" => .num 0
  | some s => .text s

/-- One row of the `schedule_stats` table
(src/modules/request_logger.py, lines 110-123), in column order:
schedule_id(0, carried implicitly), schedule_name(1), total_requests(2),
successful_requests(3), failed_requests(4), last_request_time(5),
last_success_time(6), last_failure_time(7), average_response_time_ms(8).
Timestamp cells hold ISO-8601 TEXT (`start_time.isoformat()`). -/
structure ScheduleStatsRow where
  schedule_name : String
  total_requests : Int
  successful_requests : Int
  failed_requests : Int
  last_request_time : Option String := none
  last_success_time : Option String := none
  last_failure_time : Option String := none
  average_response_time_ms : StoredAvg
deriving Repr

/-- `RequestLogger._update_schedule_stats` (lines 234-297) as the pure row
transform it performs inside the write transaction.  `row` is the existing
stats row (`none` when absent), `response_time` is
`request_result.get('response_time_ms', 0)` (`none` models a null value,
as in every failure dict), `timestamp` the result's ISO timestamp string.
In the update branch the code reads `current_avg` from `existing_stats[7]`
(lines 258-259) — which by the column order above is the
`last_failure_time` cell, NOT the stored average (index 8).  Hence: a NULL
failure time gives `current_avg = 0`; a timestamp string makes
`float(existing_stats[7])` raise `ValueError`, so the `except` branch
(line 263) stores `existing_stats[7] or 0`; and the non-success path
(line 265) stores the same.  `floatOfString` models Python `float()` on a
string, `none` standing for a raised `ValueError` (an ISO-8601 timestamp
never parses as a float).  The insert branch (lines 280-297) initializes
the average to the response time on success, else 0. -/
def update_schedule_stats (floatOfString : String → Option ℚ)
    (row : Option ScheduleStatsRow) (schedule_name : String) (success : Bool)
    (response_time : Option ℚ) (timestamp : String) : ScheduleStatsRow :=
  match row with
  | some stats =>
      let total := stats.total_requests + 1
      let succ := stats.successful_requests + (if success then 1 else 0)
      let failed := stats.failed_requests + (if success then 0 else 1)
      let new_avg : StoredAvg :=
        match success, response_time with
        | true, some rt =>
            match stats.last_failure_time with
            | none =>
                .num (((0 : ℚ) * (stats.successful_requests : ℚ) + rt)
                  / ((succ : Int) : ℚ))
            | some s =>
                match floatOfString s with
                | some q =>
                    .num ((q * (stats.successful_requests : ℚ) + rt)
                      / ((succ : Int) : ℚ))
                | none => orZero (some s)
        | _, _ => orZero stats.last_failure_time
      { schedule_name := schedule_name
        total_requests := total
        successful_requests := succ
        failed_requests := failed
        last_request_time := some timestamp
        last_success_time :=
          if success then some timestamp else stats.last_success_time
        last_failure_time :=
          if success then stats.last_failure_time else some timestamp
        average_response_time_ms := new_avg }
  | none =>
      { schedule_name := schedule_name
        total_requests := 1
        successful_requests := if success then 1 else 0
        failed_requests := if success then 0 else 1
        last_request_time := some timestamp
        last_success_time := if success then some timestamp else none
        last_failure_time := if success then none else some timestamp
        average_response_time_ms :=
          match success, response_time with
          | true, some rt => .num rt
          | _, _ => .num 0 }

/-- Python `float()` on the strings this code feeds it: the
`last_failure_time` cells only ever hold ISO-8601 timestamps, which never
parse as floats. -/
def noFloat : String → Option ℚ := fun _ => none

/-- Stats row after successes of 100, 200 and 300 ms, starting from no
row, no failures anywhere. -/
def statsAfter1 : ScheduleStatsRow :=
  update_schedule_stats noFloat none "job" true (some 100) "T0"

/-- Stats row after the second success (200 ms). -/
def statsAfter2 : ScheduleStatsRow :=
  update_schedule_stats noFloat (some statsAfter1) "job" true (some 200) "T1"

/-- Stats row after the third success (300 ms). -/
def statsAfter3 : ScheduleStatsRow :=
  update_schedule_stats noFloat (some statsAfter2) "job" true (some 300) "T2"

/-- `statsAfter1` with a failure timestamp already recorded, as left by an
earlier failure of the job. -/
def statsWithFailureTime : ScheduleStatsRow :=
  { statsAfter1 with last_failure_time := some "F0" }

end RequestLogger

/-- Claim C9 names a code bug: `_update_schedule_stats` reads
`current_avg` from `existing_stats[7]`, the `last_failure_time` column
(the stored average is column 8).  Evaluating the faithful embedding: for
successive successful response times [100, 200, 300] ms with no failures,
the failure-time cell stays NULL so `current_avg` is always 0 and the
stored averages are 100, 100, 100 — not the claimed 100, 150, 200; a
failure overwrites the stored average with `last_failure_time or 0`
(here: 100 becomes 0); and once a failure timestamp exists, even a
success stores that TEXT timestamp as the "average". -/
theorem average_reads_failure_time_column :
    RequestLogger.statsAfter1.average_response_time_ms = .num 100
    ∧ RequestLogger.statsAfter2.average_response_time_ms = .num 100
    ∧ RequestLogger.statsAfter3.average_response_time_ms = .num 100
    ∧ RequestLogger.StoredAvg.num 100 ≠ RequestLogger.StoredAvg.num 150
    ∧ (RequestLogger.update_schedule_stats RequestLogger.noFloat
        (some RequestLogger.statsAfter1) "job" false none
        "T9").average_response_time_ms = .num 0
    ∧ (RequestLogger.update_schedule_stats RequestLogger.noFloat
        (some RequestLogger.statsWithFailureTime) "job" true (some 200)
        "T9").average_response_time_ms = .text "F0" := by
  refine ⟨rfl, ?_, ?_, by decide, rfl, rfl⟩
  · norm_num [RequestLogger.statsAfter2, RequestLogger.statsAfter1,
      RequestLogger.update_schedule_stats, RequestLogger.noFloat]
  · norm_num [RequestLogger.statsAfter3, RequestLogger.statsAfter2,
      RequestLogger.statsAfter1, RequestLogger.update_schedule_stats,
      RequestLogger.noFloat]

end WebRequestTimer
